import Mathlib

/-!
Shallow embedding of the crypto-store backend (src/main.py and src/schemas.py):
a demo storefront that lists products, creates mock payment intents at checkout,
confirms payments through a mock webhook, and aggregates orders for a dashboard.

Monetary amounts are modelled as rationals; timestamps as natural numbers
(seconds); the document store as in-memory lists of documents in insertion
order, which is the natural order a Mongo find without a sort returns.
Randomness (the secrets module) is modelled by an explicit stream of
alphabet indices, and the environment by an explicit optional value.
-/

namespace CryptoStore

attribute [local semireducible] Rat.add Rat.mul Rat.sub Rat.inv

/-- Rounding used by the Python builtin round on a scaled value: round half
to even. f is the floor of x and r2 compares twice the fractional numerator
against the denominator, so r2 < den means the fraction is below one half. -/
def roundHalfEven (x : ℚ) : ℤ :=
  let f : ℤ := x.num.fdiv (x.den : ℤ)
  let r2 : ℤ := 2 * (x.num - f * (x.den : ℤ))
  if r2 < (x.den : ℤ) then f
  else if (x.den : ℤ) < r2 then f + 1
  else if f % 2 = 0 then f else f + 1

/-- Python round(x, n): round x to n decimal places, half to even. -/
def pyRound (x : ℚ) (n : ℕ) : ℚ :=
  Rat.divInt (roundHalfEven (x * 10 ^ n)) ((10 : ℤ) ^ n)

/-- usd_to_crypto from src/main.py lines 31-37: mock spot prices, USDC/USDT
are one dollar, BTC is 60000 dollars; any other currency passes through. -/
def usd_to_crypto (amount_usd : ℚ) (currency : String) : ℚ :=
  if currency = "USDC" ∨ currency = "USDT" then pyRound amount_usd 2
  else if currency = "BTC" then pyRound (amount_usd / 60000) 8
  else amount_usd

/-- The 58-symbol alphabet of random_address (src/main.py line 42). -/
def alphabet : String := "ABCDEFGHJKLMNPQRSTUVWXYZabcdefghijkmnopqrstuvwxyz123456789"

/-- random_address from src/main.py lines 40-44. The 34 choices made by
secrets.choice are modelled by a stream of indices into the alphabet; the
index is always in bounds, so the getD default is never used. -/
def random_address (pfx : String) (stream : ℕ → Fin 58) : String :=
  pfx ++ "_" ++ String.mk ((List.range 34).map fun i =>
    alphabet.data.getD (stream i).val 'A')

/-- Lower-case hex digit of a value below 16. -/
def hexDigit (n : ℕ) : Char := ("0123456789abcdef".data).getD n '0'

/-- Modelled from the spec: create_document (defined in database.py, which is
not under src/) assigns each inserted document a store-assigned unique
identifier. We render identifiers injectively from the store counter in the
native 24-hex-character ObjectId format. -/
def objIdOfNat (n : ℕ) : String :=
  String.mk ((List.range 24).map fun i => hexDigit (n / 16 ^ (23 - i) % 16))

/-- Whether a character is a hexadecimal digit, as bson ObjectId accepts. -/
def isHexChar (c : Char) : Bool :=
  c.isDigit || ('a' ≤ c && c ≤ 'f') || ('A' ≤ c && c ≤ 'F')

/-- bson ObjectId parsing: accepts exactly the 24-character hex strings,
case-insensitively; the canonical (stored) form is lower case. Returns none
when the Python constructor would raise. -/
def parseOid (s : String) : Option String :=
  if s.length = 24 ∧ s.data.all isHexChar then some (String.mk (s.data.map Char.toLower))
  else none

/-- Product document fields (src/schemas.py lines 6-11). -/
structure Product where
  title : String
  description : Option String
  price_usd : ℚ
  image_url : Option String
  active : Bool
  deriving DecidableEq

/-- PaymentIntent document fields (src/schemas.py lines 14-22), together with
the two fields the webhook may add to the stored document via update
(buyer_email and confirmed_at), absent (none) at creation. -/
structure PaymentIntent where
  product_id : String
  product_title : String
  amount_usd : ℚ
  currency : String
  address : String
  amount_crypto : ℚ
  status : String
  expires_at : Option ℕ
  buyer_email : Option String
  confirmed_at : Option ℕ
  deriving DecidableEq

/-- A stored value of the amount_usd field of an order document. num q is any
value the Python float builtin converts to q; nonNum is one on which float
raises, carrying its display text. -/
inductive FloatVal where
  | num : ℚ → FloatVal
  | nonNum : String → FloatVal
  deriving DecidableEq

/-- The Python float conversion on a stored value: some q on success, none
when it raises. -/
def floatOf : FloatVal → Option ℚ
  | .num q => some q
  | .nonNum _ => none

/-- Order document fields (src/schemas.py lines 25-32). amount_usd is kept as
a raw stored value because the dashboard reads order documents straight from
the store, where the field may hold a non-numeric value. -/
structure OrderData where
  intent_id : String
  product_id : String
  product_title : String
  amount_usd : FloatVal
  currency : String
  amount_crypto : ℚ
  buyer_email : Option String
  deriving DecidableEq

/-- A stored document: the payload plus the store envelope. Modelled from the
spec: the store adds a unique identifier and a creation timestamp to every
inserted document (database.py is not under src/). -/
structure Doc (α : Type) where
  id : String
  created_at : ℕ
  data : α
  deriving DecidableEq

/-- The three persisted collections, in insertion order, plus the counter the
store draws fresh identifiers from. -/
structure Store where
  products : List (Doc Product)
  intents : List (Doc PaymentIntent)
  orders : List (Doc OrderData)
  nextId : ℕ
  deriving DecidableEq

/-- Modelled from the spec: create_document (database.py, not under src/)
inserts the document with a store-assigned identifier and a creation
timestamp and returns the identifier. -/
def createDoc {α : Type} (nextId : ℕ) (now : ℕ) (d : α) : Doc α :=
  ⟨objIdOfNat nextId, now, d⟩

/-- HTTP error raised by a handler: status code and detail message. -/
structure HErr where
  status : ℕ
  detail : String
  deriving DecidableEq

/-- Checkout request body (src/main.py lines 57-60). -/
structure CheckoutReq where
  product_id : String
  currency : String
  buyer_email : Option String
  deriving DecidableEq

/-- Checkout response body (src/main.py line 159). -/
structure CheckoutResp where
  intent_id : String
  address : String
  currency : String
  amount_crypto : ℚ
  amount_usd : ℚ
  deriving DecidableEq

/-- Webhook request body (src/main.py lines 63-65). -/
structure WebhookReq where
  intent_id : String
  secret : String
  deriving DecidableEq

/-- Webhook response (src/main.py lines 195 and 210): order_id is present only
on a fresh confirmation. -/
structure WebhookResp where
  status : String
  order_id : Option String
  deriving DecidableEq

/-- The fallback query of create_checkout (src/main.py line 124): find_one on
the product collection filtered to documents with an identifier, an existing
title and active set to true. Every stored product document carries an
identifier and a title, so this is the first active product in natural
order. -/
def findActiveProduct (s : Store) : Option (Doc Product) :=
  s.products.find? (fun p => p.data.active)

/-- The direct lookup of create_checkout (src/main.py lines 127-133): parse
the supplied product_id as an ObjectId and find_one by that identifier, with
no filter on active; any parse failure is swallowed (none). -/
def findProductById (s : Store) (pid : String) : Option (Doc Product) :=
  match parseOid pid with
  | none => none
  | some oid => s.products.find? (fun p => p.id == oid)

/-- Product resolution of create_checkout (src/main.py lines 124-133): the
arbitrary active product is the default; when product_id is truthy (a
non-empty string) and the direct lookup finds a document, that document
overrides the default. -/
def resolveProduct (s : Store) (pid : String) : Option (Doc Product) :=
  let fallback := findActiveProduct s
  if pid ≠ "" then
    match findProductById s pid with
    | some found => some found
    | none => fallback
  else fallback

/-- The PaymentIntent document built and inserted by create_checkout
(src/main.py lines 137-153). -/
def newIntentDoc (s : Store) (p : Doc Product) (req : CheckoutReq) (now : ℕ)
    (stream : ℕ → Fin 58) : Doc PaymentIntent :=
  createDoc s.nextId now
    { product_id := p.id
      product_title := p.data.title
      amount_usd := p.data.price_usd
      currency := req.currency.toUpper
      address := random_address req.currency.toUpper stream
      amount_crypto := usd_to_crypto p.data.price_usd req.currency.toUpper
      status := "pending"
      expires_at := some (now + 1800)
      buyer_email := none
      confirmed_at := none }

/-- The buyer-email side effect of create_checkout (src/main.py lines
156-157): when buyer_email is truthy (supplied and non-empty), update_one
sets buyer_email on the document whose identifier find_one on a bare
existence filter returns, i.e. the first document of the intent collection in
natural order, not necessarily the one just created. -/
def attachEmail (l : List (Doc PaymentIntent)) (email : Option String) :
    List (Doc PaymentIntent) :=
  match email with
  | none => l
  | some e =>
    if e = "" then l
    else
      match l with
      | [] => []
      | h :: t => { h with data := { h.data with buyer_email := some e } } :: t

/-- create_checkout (src/main.py lines 121-159). -/
def create_checkout (s : Store) (req : CheckoutReq) (now : ℕ)
    (stream : ℕ → Fin 58) : Except HErr (Store × CheckoutResp) :=
  match resolveProduct s req.product_id with
  | none => .error ⟨404, "Product not found"⟩
  | some p =>
    let d := newIntentDoc s p req now stream
    .ok ({ s with
            intents := attachEmail (s.intents ++ [d]) req.buyer_email
            nextId := s.nextId + 1 },
         { intent_id := d.id
           address := d.data.address
           currency := req.currency.toUpper
           amount_crypto := d.data.amount_crypto
           amount_usd := d.data.amount_usd })

/-- Payment status response (src/main.py lines 171-174): the stored document
without its identifier field, plus the echoed intent_id. -/
structure PaymentStatusResp where
  data : PaymentIntent
  created_at : ℕ
  intent_id : String
  deriving DecidableEq

/-- get_payment_status (src/main.py lines 162-174). The try block swallows an
ObjectId parse failure into a 404 response with detail "Invalid intent id". -/
def get_payment_status (s : Store) (intent_id : String) :
    Except HErr PaymentStatusResp :=
  match parseOid intent_id with
  | none => .error ⟨404, "Invalid intent id"⟩
  | some oid =>
    match s.intents.find? (fun d => d.id == oid) with
    | none => .error ⟨404, "Payment intent not found"⟩
    | some d => .ok ⟨d.data, d.created_at, intent_id⟩

/-- The confirmation update of webhook_mark_paid (src/main.py line 198):
update_one sets status to confirmed and confirmed_at to the current time on
the first document with the given identifier. -/
def confirmFirst (l : List (Doc PaymentIntent)) (oid : String) (now : ℕ) :
    List (Doc PaymentIntent) :=
  match l with
  | [] => []
  | d :: t =>
    if d.id == oid then
      { d with data := { d.data with status := "confirmed", confirmed_at := some now } } :: t
    else d :: confirmFirst t oid now

/-- webhook_mark_paid (src/main.py lines 177-210). env models the optional
WEBHOOK_MOCK_SECRET environment variable. -/
def webhook_mark_paid (env : Option String) (s : Store) (req : WebhookReq)
    (now : ℕ) : Except HErr (Store × WebhookResp) :=
  let expected := env.getD "demo-secret"
  if req.secret ≠ expected then .error ⟨401, "Unauthorized"⟩
  else
    match parseOid req.intent_id with
    | none => .error ⟨400, "Invalid intent id"⟩
    | some oid =>
      match s.intents.find? (fun d => d.id == oid) with
      | none => .error ⟨404, "Intent not found"⟩
      | some d =>
        if d.data.status = "confirmed" then .ok (s, ⟨"already_confirmed", none⟩)
        else
          let od := createDoc s.nextId now
            { intent_id := req.intent_id
              product_id := d.data.product_id
              product_title := d.data.product_title
              amount_usd := FloatVal.num d.data.amount_usd
              currency := d.data.currency
              amount_crypto := d.data.amount_crypto
              buyer_email := none : OrderData }
          .ok ({ s with
                  intents := confirmFirst s.intents oid now
                  orders := s.orders ++ [od]
                  nextId := s.nextId + 1 },
               ⟨"confirmed", some od.id⟩)

/-- The revenue accumulation of dashboard_summary (src/main.py lines 219-224):
add the float conversion of each amount_usd, silently skipping values on
which the conversion raises. -/
def revenueFold (orders : List (Doc OrderData)) : ℚ :=
  orders.foldl
    (fun acc o =>
      match floatOf o.data.amount_usd with
      | some q => acc + q
      | none => acc) 0

/-- Most-recent-first order on order documents, as sort("created_at", -1). -/
def byRecent (a b : Doc OrderData) : Prop := b.created_at ≤ a.created_at

instance : DecidableRel byRecent :=
  fun a b => inferInstanceAs (Decidable (b.created_at ≤ a.created_at))

instance : IsTotal (Doc OrderData) byRecent :=
  ⟨fun a b => (Nat.le_total b.created_at a.created_at).imp id id⟩

instance : IsTrans (Doc OrderData) byRecent :=
  ⟨fun _ _ _ hab hbc => Nat.le_trans hbc hab⟩

/-- A recent-orders entry: the order document with its identifier popped
(src/main.py line 227), keeping the creation timestamp. -/
def stripId (d : Doc OrderData) : ℕ × OrderData := (d.created_at, d.data)

/-- Dashboard response (src/main.py lines 229-234). -/
structure SummaryResp where
  total_products : ℕ
  total_orders : ℕ
  total_revenue : ℚ
  recent_orders : List (ℕ × OrderData)
  deriving DecidableEq

/-- dashboard_summary (src/main.py lines 215-234). -/
def dashboard_summary (s : Store) : SummaryResp :=
  { total_products := s.products.length
    total_orders := s.orders.length
    total_revenue := pyRound (revenueFold s.orders) 2
    recent_orders := ((List.insertionSort byRecent s.orders).take 5).map stripId }

/-- Decidable equality on handler results, so concrete runs can be checked
by evaluation. -/
instance exceptDecEq {ε α : Type} [DecidableEq ε] [DecidableEq α] :
    DecidableEq (Except ε α) := fun a b =>
  match a, b with
  | .ok x, .ok y =>
    if h : x = y then isTrue (by rw [h]) else isFalse (fun hc => by cases hc; exact h rfl)
  | .error x, .error y =>
    if h : x = y then isTrue (by rw [h]) else isFalse (fun hc => by cases hc; exact h rfl)
  | .ok _, .error _ => isFalse (fun hc => by cases hc)
  | .error _, .ok _ => isFalse (fun hc => by cases hc)

/-- An empty store. -/
def emptyStore : Store := ⟨[], [], [], 0⟩

/-- A sample active product priced at 120 dollars. -/
def sampleProduct : Product := ⟨"Widget", none, 120, none, true⟩

/-- A store holding just the sample product. -/
def widgetStore : Store := ⟨[⟨objIdOfNat 0, 0, sampleProduct⟩], [], [], 1⟩

/-- A sample pending payment intent for the sample product. -/
def sampleIntent : PaymentIntent :=
  ⟨objIdOfNat 0, "Widget", 120, "USDC", "USDC_addr", 120, "pending", some 1800, none, none⟩

/-- A store holding one pending intent. -/
def pendingStore : Store := ⟨[], [⟨objIdOfNat 1, 0, sampleIntent⟩], [], 2⟩

/-- The sample intent after confirmation. -/
def confirmedIntent : PaymentIntent :=
  { sampleIntent with status := "confirmed", confirmed_at := some 3 }

/-- A store holding one already-confirmed intent. -/
def confirmedStore : Store := ⟨[], [⟨objIdOfNat 1, 0, confirmedIntent⟩], [], 2⟩

/-- The stored document of the sample pending intent. -/
def sampleIntentDoc : Doc PaymentIntent := ⟨objIdOfNat 1, 0, sampleIntent⟩

/-- A store holding the sample product and one pre-existing intent, used to
exercise the buyer-email side effect when more than one intent exists. -/
def emailStore : Store := ⟨[⟨objIdOfNat 0, 0, sampleProduct⟩], [sampleIntentDoc], [], 2⟩

/-- The stored document of the sample product. -/
def sampleProductDoc : Doc Product := ⟨objIdOfNat 0, 0, sampleProduct⟩

/-- A checkout request with empty product_id and a buyer email supplied. -/
def emailReq : CheckoutReq := ⟨"", "USDC", some "a@b.c"⟩

/-- A constant random stream. -/
def zs : ℕ → Fin 58 := fun _ => 0

/-- The intent document the email checkout inserts. -/
def emailNewDoc : Doc PaymentIntent := newIntentDoc emailStore sampleProductDoc emailReq 0 zs

/-- The store after the email checkout. -/
def emailStoreAfter : Store :=
  { emailStore with
      intents := attachEmail (emailStore.intents ++ [emailNewDoc]) emailReq.buyer_email
      nextId := emailStore.nextId + 1 }

/-- The response of the email checkout. -/
def emailRespAfter : CheckoutResp :=
  { intent_id := emailNewDoc.id
    address := emailNewDoc.data.address
    currency := emailReq.currency.toUpper
    amount_crypto := emailNewDoc.data.amount_crypto
    amount_usd := emailNewDoc.data.amount_usd }

/-- An order document with a given amount value, creation time and counter. -/
def orderAt (amt : FloatVal) (t : ℕ) (n : ℕ) : Doc OrderData :=
  ⟨objIdOfNat n, t, ⟨"i", "p", "T", amt, "USDC", 0, none⟩⟩

/-- A store holding three orders with amount_usd 10, 20 and the non-numeric
value "bad". -/
def threeOrdersStore : Store :=
  ⟨[], [], [orderAt (.num 10) 0 0, orderAt (.num 20) 1 1, orderAt (.nonNum "bad") 2 2], 3⟩

/-! Helper lemmas shared by the claim theorems. -/

theorem alphabet_length : alphabet.data.length = 58 := by decide

theorem mem_alphabet_getD (j : Fin 58) : alphabet.data.getD j.val 'A' ∈ alphabet.data := by
  have hlt : j.val < alphabet.data.length := by rw [alphabet_length]; exact j.isLt
  rw [List.getD_eq_getElem _ _ hlt]
  exact List.getElem_mem hlt

theorem objIdOfNat_ne_empty (n : ℕ) : objIdOfNat n ≠ "" := by
  intro h
  have h2 : (objIdOfNat n).data.length = 0 := by rw [h]; rfl
  simp [objIdOfNat] at h2

theorem parseOid_empty : parseOid "" = none := by decide

theorem findProductById_empty (s : Store) : findProductById s "" = none := by
  simp [findProductById, parseOid_empty]

theorem resolveProduct_eq_fallback (s : Store) (pid : String)
    (h : pid = "" ∨ findProductById s pid = none) :
    resolveProduct s pid = findActiveProduct s := by
  unfold resolveProduct
  rcases h with h | h
  · simp [h]
  · by_cases hp : pid = ""
    · simp [hp]
    · simp [hp, h]

theorem resolveProduct_none (s : Store) (pid : String)
    (h : resolveProduct s pid = none) :
    findActiveProduct s = none ∧ findProductById s pid = none := by
  unfold resolveProduct at h
  by_cases hp : pid = ""
  · subst hp
    simp at h
    exact ⟨h, findProductById_empty s⟩
  · simp [hp] at h
    cases hfb : findProductById s pid with
    | none =>
      rw [hfb] at h
      exact ⟨h, rfl⟩
    | some f =>
      rw [hfb] at h
      simp at h

theorem create_checkout_ok (s : Store) (req : CheckoutReq) (now : ℕ)
    (stream : ℕ → Fin 58) (p : Doc Product)
    (hrp : resolveProduct s req.product_id = some p) :
    create_checkout s req now stream = .ok
      ({ s with
          intents := attachEmail (s.intents ++ [newIntentDoc s p req now stream]) req.buyer_email
          nextId := s.nextId + 1 },
       { intent_id := (newIntentDoc s p req now stream).id
         address := (newIntentDoc s p req now stream).data.address
         currency := req.currency.toUpper
         amount_crypto := (newIntentDoc s p req now stream).data.amount_crypto
         amount_usd := (newIntentDoc s p req now stream).data.amount_usd }) := by
  unfold create_checkout
  rw [hrp]

theorem create_checkout_error (s : Store) (req : CheckoutReq) (now : ℕ)
    (stream : ℕ → Fin 58) (e : HErr)
    (h : create_checkout s req now stream = .error e) :
    e = ⟨404, "Product not found"⟩ ∧ resolveProduct s req.product_id = none := by
  unfold create_checkout at h
  cases hrp : resolveProduct s req.product_id with
  | none =>
    rw [hrp] at h
    injection h with h1
    exact ⟨h1.symm, rfl⟩
  | some p =>
    rw [hrp] at h
    exact (Except.noConfusion h)

theorem attachEmail_getLast (l : List (Doc PaymentIntent)) (d : Doc PaymentIntent)
    (em : Option String) :
    ∃ d', (attachEmail (l ++ [d]) em).getLast? = some d' ∧
      d'.data.product_id = d.data.product_id ∧
      d'.data.product_title = d.data.product_title ∧
      d'.data.amount_usd = d.data.amount_usd ∧
      d'.data.status = d.data.status := by
  cases em with
  | none => exact ⟨d, by simp [attachEmail], rfl, rfl, rfl, rfl⟩
  | some e =>
    by_cases he : e = ""
    · exact ⟨d, by simp [attachEmail, he], rfl, rfl, rfl, rfl⟩
    · cases l with
      | nil =>
        refine ⟨{ d with data := { d.data with buyer_email := some e } }, ?_, rfl, rfl, rfl, rfl⟩
        simp [attachEmail, he]
      | cons h t =>
        refine ⟨d, ?_, rfl, rfl, rfl, rfl⟩
        show ((attachEmail ((h :: t) ++ [d]) (some e))).getLast? = some d
        rw [List.cons_append]
        simp only [attachEmail, if_neg he]
        rw [← List.cons_append, List.getLast?_concat]

theorem find?_confirmFirst (l : List (Doc PaymentIntent)) (oid : String) (now : ℕ)
    (d : Doc PaymentIntent)
    (h : l.find? (fun x => x.id == oid) = some d) :
    (confirmFirst l oid now).find? (fun x => x.id == oid) =
      some { d with data := { d.data with status := "confirmed", confirmed_at := some now } } := by
  induction l with
  | nil => simp at h
  | cons x t ih =>
    by_cases hx : (x.id == oid) = true
    · rw [@List.find?_cons_of_pos _ (fun y => y.id == oid) x t hx] at h
      injection h with h1
      subst h1
      unfold confirmFirst
      rw [if_pos hx]
      exact @List.find?_cons_of_pos _ (fun y => y.id == oid)
        { x with data := { x.data with status := "confirmed", confirmed_at := some now } } t hx
    · rw [@List.find?_cons_of_neg _ (fun y => y.id == oid) x t hx] at h
      unfold confirmFirst
      rw [if_neg hx]
      rw [@List.find?_cons_of_neg _ (fun y => y.id == oid) x (confirmFirst t oid now) hx]
      exact ih h

theorem revenueFold_eq (l : List (Doc OrderData)) :
    revenueFold l = (l.filterMap (fun o => floatOf o.data.amount_usd)).sum := by
  have key : ∀ (l : List (Doc OrderData)) (a : ℚ),
      l.foldl
        (fun acc o =>
          match floatOf o.data.amount_usd with
          | some q => acc + q
          | none => acc) a
        = a + (l.filterMap (fun o => floatOf o.data.amount_usd)).sum := by
    intro l
    induction l with
    | nil => intro a; simp
    | cons x t ih =>
      intro a
      cases hx : floatOf x.data.amount_usd with
      | none => simp [List.foldl, hx, List.filterMap_cons, ih]
      | some q => simp [List.foldl, hx, List.filterMap_cons, ih, add_assoc]
  simpa [revenueFold] using key l 0

/-! Claim theorems. -/

/-- C6: for every non-negative amount a, convert(a, "USDC") and
convert(a, "USDT") equal a rounded to 2 decimal places, convert(a, "BTC")
equals a divided by 60000 rounded to 8 decimal places, and any other currency
string is passed through unchanged; the conversion is a total pure function,
so it never fails and has no side effects. -/
theorem c6_usd_to_crypto (a : ℚ) (_h : 0 ≤ a) :
    usd_to_crypto a "USDC" = pyRound a 2 ∧
    usd_to_crypto a "USDT" = pyRound a 2 ∧
    usd_to_crypto a "BTC" = pyRound (a / 60000) 8 ∧
    ∀ c : String, c ≠ "USDC" → c ≠ "USDT" → c ≠ "BTC" → usd_to_crypto a c = a := by
  refine ⟨?_, ?_, ?_, ?_⟩
  · unfold usd_to_crypto
    rw [if_pos (Or.inl rfl)]
  · unfold usd_to_crypto
    rw [if_pos (Or.inr rfl)]
  · unfold usd_to_crypto
    rw [if_neg (by decide), if_pos rfl]
  · intro c h1 h2 h3
    unfold usd_to_crypto
    rw [if_neg (fun hc => hc.elim h1 h2), if_neg h3]

/-- Witness for C6 at the concrete amount 120. -/
theorem c6_witness :
    (0 : ℚ) ≤ 120 ∧ usd_to_crypto 120 "BTC" = pyRound (120 / 60000) 8 :=
  ⟨by norm_num, (c6_usd_to_crypto 120 (by norm_num)).2.2.1⟩

/-- C9: for every prefix string and every outcome of the random source,
generate(prefix) returns prefix followed by an underscore followed by exactly
34 characters, each drawn from the 58-symbol alphabet. -/
theorem c9_random_address (pfx : String) (stream : ℕ → Fin 58) :
    ∃ core : String, random_address pfx stream = pfx ++ "_" ++ core ∧
      core.length = 34 ∧ ∀ c ∈ core.data, c ∈ alphabet.data := by
  refine ⟨String.mk ((List.range 34).map fun i => alphabet.data.getD (stream i).val 'A'),
    rfl, ?_, ?_⟩
  · show (List.map _ (List.range 34)).length = 34
    simp
  · intro c hc
    replace hc : c ∈ (List.range 34).map fun i => alphabet.data.getD (stream i).val 'A' := hc
    rcases List.mem_map.mp hc with ⟨i, _, rfl⟩
    exact mem_alphabet_getD (stream i)

/-- Witness for C9 at a concrete prefix and random stream. -/
theorem c9_witness :
    ∃ core : String,
      random_address "BTC" (fun _ => (0 : Fin 58)) = "BTC" ++ "_" ++ core ∧
      core.length = 34 ∧ ∀ c ∈ core.data, c ∈ alphabet.data :=
  c9_random_address "BTC" (fun _ => (0 : Fin 58))

/-- C8: a confirm call whose secret is not exactly the configured shared
secret (default "demo-secret" when unconfigured) fails with Unauthorized
(HTTP 401) for every store, every intent_id and every time; the handler
raises before touching the store, so no intent is modified and no order is
created. -/
theorem c8_unauthorized (env : Option String) (s : Store) (req : WebhookReq) (now : ℕ)
    (h : req.secret ≠ env.getD "demo-secret") :
    webhook_mark_paid env s req now = .error ⟨401, "Unauthorized"⟩ := by
  unfold webhook_mark_paid
  rw [if_pos h]

/-- Witness for C8 at a concrete wrong secret with unset environment. -/
theorem c8_witness :
    webhook_mark_paid none emptyStore ⟨"000000000000000000000000", "wrong"⟩ 0 =
      .error ⟨401, "Unauthorized"⟩ :=
  c8_unauthorized none emptyStore ⟨"000000000000000000000000", "wrong"⟩ 0 (by decide)

/-- C5 counterexample: contrary to the claim, an intent_id that cannot be
parsed into the native reference format is surfaced with HTTP status 404,
not 400. -/
theorem c5_counterexample :
    ∃ e : HErr, get_payment_status emptyStore "zzz" = .error e ∧
      e.status = 404 ∧ e.status ≠ 400 := by
  refine ⟨⟨404, "Invalid intent id"⟩, ?_, rfl, by decide⟩
  have hp : parseOid "zzz" = none := by decide
  unfold get_payment_status
  rw [hp]

/-- C5 (amended): if the supplied intent_id cannot be parsed into the native
reference format, get_status fails with detail "Invalid intent id" surfaced
as HTTP 404 (not 400: the handler catches the parse failure and raises 404);
if the id parses but no intent record exists, it fails with NotFound,
surfaced as HTTP 404. -/
theorem c5_get_status_errors (s : Store) (iid : String) :
    (parseOid iid = none →
      get_payment_status s iid = .error ⟨404, "Invalid intent id"⟩) ∧
    (∀ oid, parseOid iid = some oid →
      s.intents.find? (fun d => d.id == oid) = none →
      get_payment_status s iid = .error ⟨404, "Payment intent not found"⟩) := by
  constructor
  · intro hp
    unfold get_payment_status
    rw [hp]
  · intro oid hp hf
    unfold get_payment_status
    simp only [hp, hf]

/-- Witness for C5 (amended) at a well-formed id absent from an empty store. -/
theorem c5_witness :
    get_payment_status emptyStore "000000000000000000000000" =
      .error ⟨404, "Payment intent not found"⟩ :=
  (c5_get_status_errors emptyStore "000000000000000000000000").2
    "000000000000000000000000" (by decide) (by decide)

/-- C3: a confirm call with the correct secret on an existing intent whose
status is already "confirmed" returns already_confirmed with no order_id,
creates no new Order and leaves the whole store (in particular the intent
and its confirmed_at) untouched: the returned store is the input store. -/
theorem c3_already_confirmed (env : Option String) (s : Store) (req : WebhookReq)
    (now : ℕ) (oid : String) (d : Doc PaymentIntent)
    (hsec : req.secret = env.getD "demo-secret")
    (hoid : parseOid req.intent_id = some oid)
    (hfind : s.intents.find? (fun x => x.id == oid) = some d)
    (hst : d.data.status = "confirmed") :
    webhook_mark_paid env s req now = .ok (s, ⟨"already_confirmed", none⟩) := by
  unfold webhook_mark_paid
  rw [if_neg (fun hne => hne hsec)]
  simp only [hoid, hfind]
  rw [if_pos hst]

/-- Witness for C3 at a concrete confirmed intent. -/
theorem c3_witness :
    webhook_mark_paid none confirmedStore ⟨objIdOfNat 1, "demo-secret"⟩ 7 =
      .ok (confirmedStore, ⟨"already_confirmed", none⟩) :=
  c3_already_confirmed none confirmedStore ⟨objIdOfNat 1, "demo-secret"⟩ 7
    (objIdOfNat 1) ⟨objIdOfNat 1, 0, confirmedIntent⟩ rfl (by decide) (by decide) rfl

/-- C2: a confirm call with the correct secret on an existing intent whose
status is not "confirmed" sets the intent status to "confirmed", stamps
confirmed_at with the current time, appends exactly one new Order whose
intent_id, product_id, product_title, amount_usd, currency and amount_crypto
equal the fields of the intent snapshot, and returns status "confirmed" with
a non-empty order_id. -/
theorem c2_confirm (env : Option String) (s : Store) (req : WebhookReq) (now : ℕ)
    (oid : String) (d : Doc PaymentIntent)
    (hsec : req.secret = env.getD "demo-secret")
    (hoid : parseOid req.intent_id = some oid)
    (hfind : s.intents.find? (fun x => x.id == oid) = some d)
    (hst : ¬ d.data.status = "confirmed") :
    ∃ s' : Store, ∃ od : Doc OrderData,
      webhook_mark_paid env s req now = .ok (s', ⟨"confirmed", some od.id⟩) ∧
      od.id ≠ "" ∧
      s'.intents.find? (fun x => x.id == oid) =
        some { d with data := { d.data with status := "confirmed", confirmed_at := some now } } ∧
      s'.orders = s.orders ++ [od] ∧
      od.data.intent_id = req.intent_id ∧
      od.data.product_id = d.data.product_id ∧
      od.data.product_title = d.data.product_title ∧
      od.data.amount_usd = FloatVal.num d.data.amount_usd ∧
      od.data.currency = d.data.currency ∧
      od.data.amount_crypto = d.data.amount_crypto := by
  refine ⟨{ s with
      intents := confirmFirst s.intents oid now
      orders := s.orders ++ [createDoc s.nextId now
        ⟨req.intent_id, d.data.product_id, d.data.product_title,
         FloatVal.num d.data.amount_usd, d.data.currency, d.data.amount_crypto, none⟩]
      nextId := s.nextId + 1 },
    createDoc s.nextId now
      ⟨req.intent_id, d.data.product_id, d.data.product_title,
       FloatVal.num d.data.amount_usd, d.data.currency, d.data.amount_crypto, none⟩,
    ?_, objIdOfNat_ne_empty s.nextId,
    find?_confirmFirst s.intents oid now d hfind, rfl, rfl, rfl, rfl, rfl, rfl, rfl⟩
  unfold webhook_mark_paid
  rw [if_neg (fun hne => hne hsec)]
  simp only [hoid, hfind]
  rw [if_neg hst]

/-- Witness for C2 at a concrete pending intent. -/
theorem c2_witness :
    ∃ s' : Store, ∃ od : Doc OrderData,
      webhook_mark_paid none pendingStore ⟨objIdOfNat 1, "demo-secret"⟩ 9 =
        .ok (s', ⟨"confirmed", some od.id⟩) ∧
      od.id ≠ "" ∧
      s'.intents.find? (fun x => x.id == objIdOfNat 1) =
        some { sampleIntentDoc with data :=
          { sampleIntent with status := "confirmed", confirmed_at := some 9 } } ∧
      s'.orders = pendingStore.orders ++ [od] ∧
      od.data.intent_id = objIdOfNat 1 ∧
      od.data.product_id = sampleIntent.product_id ∧
      od.data.product_title = sampleIntent.product_title ∧
      od.data.amount_usd = FloatVal.num sampleIntent.amount_usd ∧
      od.data.currency = sampleIntent.currency ∧
      od.data.amount_crypto = sampleIntent.amount_crypto :=
  c2_confirm none pendingStore ⟨objIdOfNat 1, "demo-secret"⟩ 9 (objIdOfNat 1)
    sampleIntentDoc rfl (by decide) (by decide) (by decide)

/-- C1: when the supplied product_id is malformed or refers to no stored
product, checkout does not fail: it resolves to the arbitrary active product
of the fallback query when one exists and builds the new PaymentIntent from
that product, its title and price; and whenever checkout does fail, the
error is NotFound (404), no active product exists, and the supplied
product_id resolved nothing. -/
theorem c1_checkout_resolution (s : Store) (req : CheckoutReq) (now : ℕ)
    (stream : ℕ → Fin 58) :
    ((req.product_id = "" ∨ findProductById s req.product_id = none) →
      ∀ p, findActiveProduct s = some p →
        ∃ s' resp, create_checkout s req now stream = .ok (s', resp) ∧
          resp.amount_usd = p.data.price_usd ∧
          ∃ d, s'.intents.getLast? = some d ∧
            d.data.product_id = p.id ∧
            d.data.product_title = p.data.title ∧
            d.data.amount_usd = p.data.price_usd ∧
            d.data.status = "pending") ∧
    (∀ e, create_checkout s req now stream = .error e →
      e = ⟨404, "Product not found"⟩ ∧ findActiveProduct s = none ∧
      findProductById s req.product_id = none) := by
  constructor
  · intro hmal p hact
    have hrp : resolveProduct s req.product_id = some p :=
      (resolveProduct_eq_fallback s req.product_id hmal).trans hact
    refine ⟨_, _, create_checkout_ok s req now stream p hrp, rfl, ?_⟩
    obtain ⟨d', hlast, h1, h2, h3, h4⟩ :=
      attachEmail_getLast s.intents (newIntentDoc s p req now stream) req.buyer_email
    exact ⟨d', hlast, h1, h2, h3, h4⟩
  · intro e he
    obtain ⟨he404, hnone⟩ := create_checkout_error s req now stream e he
    obtain ⟨hfa, hbi⟩ := resolveProduct_none s req.product_id hnone
    exact ⟨he404, hfa, hbi⟩

/-- Witness for C1: a malformed product_id "zzz" silently falls back to the
active sample product. -/
theorem c1_witness :
    ∃ s' resp,
      create_checkout widgetStore ⟨"zzz", "USDC", none⟩ 0 zs = .ok (s', resp) ∧
      resp.amount_usd = sampleProduct.price_usd ∧
      ∃ d, s'.intents.getLast? = some d ∧
        d.data.product_id = objIdOfNat 0 ∧
        d.data.product_title = sampleProduct.title ∧
        d.data.amount_usd = sampleProduct.price_usd ∧
        d.data.status = "pending" :=
  (c1_checkout_resolution widgetStore ⟨"zzz", "USDC", none⟩ 0 zs).1
    (Or.inr (by decide)) sampleProductDoc (by decide)

/-- C10: an empty product_id is falsy in Python, so the direct by-identifier
lookup is skipped entirely and resolution equals the fallback query: the
intent is created from the arbitrary active product when one exists, and the
call fails with NotFound only when no active product exists. -/
theorem c10_empty_id (s : Store) (req : CheckoutReq) (now : ℕ) (stream : ℕ → Fin 58)
    (hempty : req.product_id = "") :
    resolveProduct s req.product_id = findActiveProduct s ∧
    (∀ p, findActiveProduct s = some p →
      ∃ s' resp, create_checkout s req now stream = .ok (s', resp) ∧
        resp.amount_usd = p.data.price_usd) ∧
    (findActiveProduct s = none →
      create_checkout s req now stream = .error ⟨404, "Product not found"⟩) := by
  have hres := resolveProduct_eq_fallback s req.product_id (Or.inl hempty)
  refine ⟨hres, ?_, ?_⟩
  · intro p hact
    exact ⟨_, _, create_checkout_ok s req now stream p (hres.trans hact), rfl⟩
  · intro hnone
    unfold create_checkout
    rw [hres, hnone]

/-- Witness for C10 at a concrete store with one active product. -/
theorem c10_witness :
    resolveProduct widgetStore "" = findActiveProduct widgetStore :=
  (c10_empty_id widgetStore ⟨"", "USDC", none⟩ 0 zs rfl).1

/-- C4: on a successful checkout that supplies a (truthy, i.e. non-empty)
buyer_email, the handler looks up any document of the intent collection and
sets buyer_email on the first one: when at least one intent already existed,
the first (oldest) intent is mutated while the newly created intent is
appended with buyer_email unset; only when the collection held no prior
intent does the email land on the new intent; and with no buyer_email
supplied, the new intent is appended and no other intent is touched. -/
theorem c4_buyer_email (s : Store) (req : CheckoutReq) (now : ℕ) (stream : ℕ → Fin 58)
    (s' : Store) (resp : CheckoutResp)
    (hok : create_checkout s req now stream = .ok (s', resp)) :
    (∀ e, req.buyer_email = some e → e ≠ "" →
      (∀ h t, s.intents = h :: t →
        ∃ d, d.data.buyer_email = none ∧
          s'.intents =
            { h with data := { h.data with buyer_email := some e } } :: (t ++ [d])) ∧
      (s.intents = [] →
        ∃ d, d.data.buyer_email = some e ∧ s'.intents = [d])) ∧
    (req.buyer_email = none →
      ∃ d, d.data.buyer_email = none ∧ s'.intents = s.intents ++ [d]) := by
  cases hrp : resolveProduct s req.product_id with
  | none =>
    rw [create_checkout] at hok
    rw [hrp] at hok
    exact (Except.noConfusion hok)
  | some p =>
    rw [create_checkout_ok s req now stream p hrp] at hok
    obtain ⟨hfst, _⟩ := Prod.mk.inj (Except.ok.inj hok)
    have hs' : s'.intents =
        attachEmail (s.intents ++ [newIntentDoc s p req now stream]) req.buyer_email := by
      rw [← hfst]
    constructor
    · intro e he hne
      constructor
      · intro h t hst
        refine ⟨newIntentDoc s p req now stream, rfl, ?_⟩
        rw [hs', he, hst]
        simp [attachEmail, hne]
      · intro hst
        refine ⟨{ newIntentDoc s p req now stream with
          data := { (newIntentDoc s p req now stream).data with buyer_email := some e } },
          rfl, ?_⟩
        rw [hs', he, hst]
        simp [attachEmail, hne]
    · intro hnone
      refine ⟨newIntentDoc s p req now stream, rfl, ?_⟩
      rw [hs', hnone]
      simp [attachEmail]

/-- Witness for C4: with one pre-existing intent, the email lands on that
older intent while the freshly created intent keeps buyer_email unset. -/
theorem c4_witness :
    ∃ d : Doc PaymentIntent, d.data.buyer_email = none ∧
      emailStoreAfter.intents =
        { sampleIntentDoc with
          data := { sampleIntentDoc.data with buyer_email := some "a@b.c" } } ::
          ([] ++ [d]) :=
  ((c4_buyer_email emailStore emailReq 0 zs emailStoreAfter emailRespAfter
      (create_checkout_ok emailStore emailReq 0 zs sampleProductDoc (by decide))).1
    "a@b.c" rfl (by decide)).1 sampleIntentDoc [] rfl

/-- C7: for every store, the dashboard summary reports the product and order
counts and the revenue as the sum of the float-convertible amount_usd values
(non-numeric ones silently skipped) rounded to 2 decimals; recent_orders is
exactly the 5 most recent stored orders, most-recent-first: the stored
orders split, up to permutation, into a kept part (whose stripped documents
recent_orders lists, min 5 n of them, descending by creation time) and a
dropped part, and every kept order was created no earlier than every dropped
order. On a store with three orders of amount_usd 10, 20 and "bad" it
reports 3 orders, revenue 30 and the three orders newest-first. -/
theorem c7_dashboard :
    (∀ s : Store,
      (dashboard_summary s).total_products = s.products.length ∧
      (dashboard_summary s).total_orders = s.orders.length ∧
      (dashboard_summary s).total_revenue =
        pyRound ((s.orders.filterMap fun o => floatOf o.data.amount_usd).sum) 2 ∧
      ∃ kept dropped : List (Doc OrderData),
        (kept ++ dropped).Perm s.orders ∧
        (dashboard_summary s).recent_orders = kept.map stripId ∧
        kept.length = min 5 s.orders.length ∧
        kept.Pairwise (fun a b => b.created_at ≤ a.created_at) ∧
        ∀ x ∈ kept, ∀ y ∈ dropped, y.created_at ≤ x.created_at) ∧
    (dashboard_summary threeOrdersStore).total_orders = 3 ∧
    (dashboard_summary threeOrdersStore).total_revenue = 30 ∧
    (dashboard_summary threeOrdersStore).recent_orders =
      [(2, (orderAt (.nonNum "bad") 2 2).data),
       (1, (orderAt (.num 20) 1 1).data),
       (0, (orderAt (.num 10) 0 0).data)] := by
  refine ⟨fun s => ⟨rfl, rfl, ?_, ?_⟩, by decide, by decide, by decide⟩
  · show pyRound (revenueFold s.orders) 2 = _
    rw [revenueFold_eq]
  · refine ⟨(List.insertionSort byRecent s.orders).take 5,
      (List.insertionSort byRecent s.orders).drop 5, ?_, rfl, ?_, ?_, ?_⟩
    · rw [List.take_append_drop]
      exact List.perm_insertionSort byRecent s.orders
    · rw [List.length_take, (List.perm_insertionSort byRecent s.orders).length_eq]
    · exact List.Pairwise.sublist (List.take_sublist 5 _)
        (List.sorted_insertionSort byRecent s.orders)
    · have hs := List.sorted_insertionSort byRecent s.orders
      rw [← List.take_append_drop 5 (List.insertionSort byRecent s.orders)] at hs
      exact (List.pairwise_append.mp hs).2.2

/-- Witness for C7 at the concrete three-order store, including the concrete
newest-first recent_orders slice. -/
theorem c7_witness :
    (dashboard_summary threeOrdersStore).total_orders = 3 ∧
    (dashboard_summary threeOrdersStore).total_revenue = 30 ∧
    (dashboard_summary threeOrdersStore).recent_orders =
      [(2, (orderAt (.nonNum "bad") 2 2).data),
       (1, (orderAt (.num 20) 1 1).data),
       (0, (orderAt (.num 10) 0 0).data)] :=
  ⟨c7_dashboard.2.1, c7_dashboard.2.2.1, c7_dashboard.2.2.2⟩

end CryptoStore
